import Mathlib

/-!
Verification of the verimark_ai biometric file-protection system.

The repository ships the React frontend (Register page, Decrypt page,
`services/api.js`); the backend core (Feature Extractor, Authenticity
Validator, KDF, Encryption Engine, Attempt Limiter, Register/Access
pipeline) is described by the specification but absent from the sources.
Definitions for the core are therefore modelled from the spec, as noted
on each; the frontend definitions are translated from the JSX/JS sources.
-/

namespace Verimark

/-- Raw image bytes (each entry intended < 256). -/
abbrev Image := List Nat

/-- Fixed-length numeric descriptor produced by the extractor. -/
abbrev Descriptor := List Nat

/-- Declared biometric modality of a sample. -/
inductive Modality where
  | iris
  | fingerprint
deriving DecidableEq, Repr

/-- Error kinds of the core (spec §7). -/
inductive CoreError where
  | InvalidImage
  | InvalidBiometric
  | AccessDenied
  | RateLimited (retryAfter : Nat)
  | CorruptContainer
deriving DecidableEq, Repr

/-- A run/host/process context; the deterministic core ignores it, which is
exactly what determinism across runs, hosts and processes means. -/
structure RunContext where
  host : Nat
  processId : Nat
  runId : Nat
  loadOrder : List Nat
deriving DecidableEq, Repr

/-- Numeric tag distinguishing the two modalities inside a descriptor. -/
def modalityTag : Modality → Nat
  | .iris => 0
  | .fingerprint => 1

/-- Minimum image size accepted by the extractor (spec §4.1: minimum
resolution/format requirements). -/
def minImageSize : Nat := 4

/-- Quantization of one byte into a tolerance band (spec §4.3: descriptors
are quantized before the KDF sees them). -/
def quantizeByte (b : Nat) : Nat := b / 16

/-- Modelled from the spec: §4.1 `extract(image bytes, modality) -> Descriptor`,
failing with `InvalidImage` when the image does not meet minimum
requirements; deterministic quantized features. -/
def extract (img : Image) (m : Modality) : Except CoreError Descriptor :=
  if img.length < minImageSize then .error .InvalidImage
  else .ok (img.map quantizeByte ++ [modalityTag m])

/-- `extract` as run on a given host/process: the descriptor depends on the
image and modality only, never on the context. -/
def extractRun (_ctx : RunContext) (img : Image) (m : Modality) :
    Except CoreError Descriptor :=
  extract img m

/-- Configured authenticity threshold for the validator. -/
def authThreshold : Nat := 1

/-- Modelled from the spec: §4.2 `validate(descriptor, modality) ->
AuthenticityScore`; a blank/degenerate descriptor scores zero. -/
def validate (d : Descriptor) (_m : Modality) : Nat :=
  (d.filter (fun b => b ≠ 0)).length

/-- Modelled from the spec: §4.2 `accept(score) -> bool` against the
configured threshold. -/
def accept (score : Nat) : Bool :=
  authThreshold ≤ score

/-- Injective encoding of a byte list into a natural number, used to model
the ideal (collision-free) cryptographic primitives symbolically. -/
def encodeList : List Nat → Nat
  | [] => 0
  | b :: bs => Nat.pair b (encodeList bs) + 1

/-- Modelled from the spec: §4.3 `derive(irisDescriptor, fingerprintDescriptor)
-> DerivedKey`; an ideal deterministic extractor, whose statistical
unrelatedness of keys for distinct inputs is modelled as injectivity. -/
def derive (dIris dFp : Descriptor) : Nat :=
  Nat.pair (encodeList dIris) (encodeList dFp)

/-- `derive` as run on a given host/process; the key depends on the two
descriptors only. -/
def deriveRun (_ctx : RunContext) (dIris dFp : Descriptor) : Nat :=
  derive dIris dFp

/-- Modelled from the spec: §4.5 `render(irisDescriptor, fingerprintDescriptor)
-> image bytes`, deterministic, purely cosmetic. -/
def render (dIris dFp : Descriptor) : List Nat :=
  dIris ++ dFp

/-- Persisted `.enc` artifact (spec §3): format version, nonce, authentication
tag (ideal MAC, symbolic), ciphertext, minimal non-secret metadata. -/
structure EncryptedContainer where
  version : Nat
  nonce : Nat
  tag : Nat
  ciphertext : List Nat
  meta : List Nat
deriving DecidableEq, Repr

/-- Current container format version. -/
def currentVersion : Nat := 1

/-- Keystream byte at position `i` under `key` and `nonce`. -/
def ksByte (key nonce i : Nat) : Nat :=
  (key + nonce + i) % 256

/-- Encrypt bytes positionally under the keystream. -/
def encBytes (key nonce : Nat) : Nat → List Nat → List Nat
  | _, [] => []
  | i, b :: bs => (b + ksByte key nonce i) % 256 :: encBytes key nonce (i + 1) bs

/-- Decrypt bytes positionally under the keystream. -/
def decBytes (key nonce : Nat) : Nat → List Nat → List Nat
  | _, [] => []
  | i, b :: bs => (b + 256 - ksByte key nonce i) % 256 :: decBytes key nonce (i + 1) bs

/-- Ideal MAC binding the key to every container field; collision freedom of
the ideal MAC is modelled by an injective pairing. -/
def mac (key version nonce : Nat) (ciphertext meta : List Nat) : Nat :=
  Nat.pair key (Nat.pair version (Nat.pair nonce
    (Nat.pair (encodeList ciphertext) (encodeList meta))))

/-- Modelled from the spec: §4.4 `encrypt(plaintext bytes, key) ->
EncryptedContainer` with a caller-supplied fresh nonce and authenticated
framing. -/
def encryptC (key nonce : Nat) (plaintext meta : List Nat) : EncryptedContainer :=
  let ct := encBytes key nonce 0 plaintext
  { version := currentVersion
    nonce := nonce
    tag := mac key currentVersion nonce ct meta
    ciphertext := ct
    meta := meta }

/-- Modelled from the spec: §4.4 `decrypt(container, key) -> plaintext bytes |
fails(AccessDenied)`; malformed framing fails with `CorruptContainer`,
a failed integrity check with `AccessDenied`. -/
def decryptC (c : EncryptedContainer) (key : Nat) : Except CoreError (List Nat) :=
  if c.version ≠ currentVersion then .error .CorruptContainer
  else if c.tag = mac key c.version c.nonce c.ciphertext c.meta then
    .ok (decBytes key c.nonce 0 c.ciphertext)
  else .error .AccessDenied

/-- Per-identity attempt-limiter state (spec §4.6):
`Clean -> Warned(n failures) -> Locked(until T)`. -/
inductive LimiterState where
  | Clean
  | Warned (n : Nat)
  | Locked (untilT : Nat)
deriving DecidableEq, Repr

/-- Configured failure threshold of the Attempt Limiter. -/
def failThreshold : Nat := 3

/-- Configured lockout cooldown of the Attempt Limiter. -/
def lockoutCooldown : Nat := 60

/-- Modelled from the spec: §4.6 `recordFailure(identityKey)` — each failed
Access moves `Clean`/`Warned(n)` to `Warned(n+1)`, and to `Locked` once the
failure count exceeds the configured threshold. -/
def recordFailure (now : Nat) : LimiterState → LimiterState
  | .Clean => .Warned 1
  | .Warned n =>
      if failThreshold < n + 1 then .Locked (now + lockoutCooldown)
      else .Warned (n + 1)
  | .Locked t => .Locked t

/-- Modelled from the spec: §4.6 `recordSuccess(identityKey)` — any success
resets to `Clean`. -/
def recordSuccess (_s : LimiterState) : LimiterState := .Clean

/-- Modelled from the spec: §4.6 `checkAllowed(identityKey) -> allowed |
fails(RateLimited, retryAfter)`; `Locked -> Clean` automatically once the
current time passes the lockout expiry. -/
def checkAllowed (s : LimiterState) (now : Nat) : Except Nat LimiterState :=
  match s with
  | .Locked t => if t < now then .ok .Clean else .error (t - now)
  | s => .ok s

/-- Modelled from the spec: §2/§6 `Register(fileBytes, irisImage,
fingerprintImage)`: Extractor → Validator (reject early) → KDF → Encryption
Engine, with the watermark as a non-fatal side artifact. The fresh nonce is
supplied by the caller's randomness. -/
def register (file : List Nat) (irisImg fpImg : Image) (nonce : Nat) :
    Except CoreError (EncryptedContainer × List Nat) :=
  match extract irisImg .iris with
  | .error e => .error e
  | .ok dI =>
    match extract fpImg .fingerprint with
    | .error e => .error e
    | .ok dF =>
      if accept (validate dI .iris) && accept (validate dF .fingerprint) then
        let key := derive dI dF
        .ok (encryptC key nonce file [file.length], render dI dF)
      else .error .InvalidBiometric

/-- Modelled from the spec: §2/§4.6/§7 `Access(encFile, iris, fingerprint)`:
Attempt Limiter checked first, then Extractor → Validator → KDF → decrypt;
`InvalidBiometric` and `AccessDenied` outcomes are recorded as failed
attempts, success resets the limiter. Returns the outcome and the new
limiter state. -/
def accessStep (s : LimiterState) (now : Nat) (c : EncryptedContainer)
    (irisImg fpImg : Image) : Except CoreError (List Nat) × LimiterState :=
  match checkAllowed s now with
  | .error retry => (.error (.RateLimited retry), s)
  | .ok s1 =>
    match extract irisImg .iris with
    | .error e => (.error e, s1)
    | .ok dI =>
      match extract fpImg .fingerprint with
      | .error e => (.error e, s1)
      | .ok dF =>
        if accept (validate dI .iris) && accept (validate dF .fingerprint) then
          match decryptC c (derive dI dF) with
          | .ok pt => (.ok pt, recordSuccess s1)
          | .error .AccessDenied => (.error .AccessDenied, recordFailure now s1)
          | .error e => (.error e, s1)
        else (.error .InvalidBiometric, recordFailure now s1)

/-- Caller-visible presentation of a core error (spec §7: `InvalidBiometric`
and `AccessDenied` present externally with the same generic message). -/
def externalMessage : CoreError → String
  | .InvalidImage => "Invalid image"
  | .InvalidBiometric => "Access denied"
  | .AccessDenied => "Access denied"
  | .RateLimited _ => "Too many attempts"
  | .CorruptContainer => "Corrupt container"

/-- Exactly-one-byte difference between two byte lists: same length and
exactly one mismatching position. -/
def mismatchCount : List Nat → List Nat → Nat
  | [], [] => 0
  | x :: xs, y :: ys => (if x = y then 0 else 1) + mismatchCount xs ys
  | _, _ => 0

/-- `ys` is `xs` with a single byte modified. -/
def OneByteDiff (xs ys : List Nat) : Prop :=
  xs.length = ys.length ∧ mismatchCount xs ys = 1

instance (xs ys : List Nat) : Decidable (OneByteDiff xs ys) := by
  unfold OneByteDiff; infer_instance

/-- A single-byte modification of a serialized container: exactly one field
carries the modification (one byte of the ciphertext or metadata, or one of
the fixed-size header fields), all other fields unchanged. -/
def SingleByteTamper (c c' : EncryptedContainer) : Prop :=
  (c'.version ≠ c.version ∧ c'.nonce = c.nonce ∧ c'.tag = c.tag ∧
    c'.ciphertext = c.ciphertext ∧ c'.meta = c.meta) ∨
  (c'.version = c.version ∧ c'.nonce ≠ c.nonce ∧ c'.tag = c.tag ∧
    c'.ciphertext = c.ciphertext ∧ c'.meta = c.meta) ∨
  (c'.version = c.version ∧ c'.nonce = c.nonce ∧ c'.tag ≠ c.tag ∧
    c'.ciphertext = c.ciphertext ∧ c'.meta = c.meta) ∨
  (c'.version = c.version ∧ c'.nonce = c.nonce ∧ c'.tag = c.tag ∧
    OneByteDiff c.ciphertext c'.ciphertext ∧ c'.meta = c.meta) ∨
  (c'.version = c.version ∧ c'.nonce = c.nonce ∧ c'.tag = c.tag ∧
    c'.ciphertext = c.ciphertext ∧ OneByteDiff c.meta c'.meta)

instance (c c' : EncryptedContainer) : Decidable (SingleByteTamper c c') := by
  unfold SingleByteTamper; infer_instance

/-! Frontend, translated from `src/frontend/src/services/api.js` and the
Register/Decrypt pages. -/

/-- Response payload the backend returns on a 2xx response. -/
structure ResponseData where
  message : String
  payload : List Nat
deriving DecidableEq, Repr

/-- The axios rejection object: `error.response?.data?.detail` and
`error.message`, each possibly absent. -/
structure JsError where
  responseDetail : Option String
  message : Option String
deriving DecidableEq, Repr

/-- Outcome of one `api.post` call as observed by the catch block. -/
inductive BackendOutcome where
  | ok (d : ResponseData)
  | err (e : JsError)
deriving DecidableEq, Repr

/-- JavaScript `a || b` on strings: `a` when present and non-empty
(truthy), otherwise `b`. -/
def jsOr (a : Option String) (b : String) : String :=
  match a with
  | some s => if s = "" then b else s
  | none => b

/-- The object `registerFile`/`accessFile` resolve with. -/
structure ApiResult where
  success : Bool
  data : Option ResponseData
  error : Option String
deriving DecidableEq, Repr

/-- Translated from `api.js` `registerFile`: try → `{success: true, data}`,
catch → `{success: false, error: detail || message || 'Registration failed'}`. -/
def registerFile (outcome : BackendOutcome) : ApiResult :=
  match outcome with
  | .ok d => { success := true, data := some d, error := none }
  | .err e =>
      { success := false, data := none
        error := some (jsOr e.responseDetail (jsOr e.message "Registration failed")) }

/-- Translated from `api.js` `accessFile`: try → `{success: true, data}`,
catch → `{success: false, error: detail || message || 'Access denied'}`. -/
def accessFile (outcome : BackendOutcome) : ApiResult :=
  match outcome with
  | .ok d => { success := true, data := some d, error := none }
  | .err e =>
      { success := false, data := none
        error := some (jsOr e.responseDetail (jsOr e.message "Access denied")) }

/-- React state of the Register page (`Register.jsx`). -/
structure RegisterPageState where
  file : Option (List Nat)
  iris : Option (List Nat)
  fingerprint : Option (List Nat)
  irisPreview : Option (List Nat)
  fpPreview : Option (List Nat)
  loading : Bool
  result : Option ApiResult
deriving DecidableEq, Repr

/-- React state of the Decrypt page (`Decrypt.jsx`). -/
structure DecryptPageState where
  encryptedFile : Option (List Nat)
  iris : Option (List Nat)
  fingerprint : Option (List Nat)
  irisPreview : Option (List Nat)
  fpPreview : Option (List Nat)
  loading : Bool
  result : Option ApiResult
deriving DecidableEq, Repr

/-- The failure result both guard branches set. -/
def missingFilesResult : ApiResult :=
  { success := false, data := none, error := some "Please upload all required files" }

/-- Translated from `Register.jsx` `handleRegister`: guard on missing inputs,
otherwise call `registerFile` and store the response (clearing the form
fields after the delayed timeout when it succeeded). The boolean records
whether the network call was made. -/
def handleRegister (st : RegisterPageState) (outcome : BackendOutcome) :
    RegisterPageState × Bool :=
  if st.file = none ∨ st.iris = none ∨ st.fingerprint = none then
    ({ st with result := some missingFilesResult }, false)
  else
    let response := registerFile outcome
    let st1 := { st with loading := false, result := some response }
    (if response.success then
      { st1 with file := none, iris := none, fingerprint := none,
                 irisPreview := none, fpPreview := none }
     else st1, true)

/-- Translated from `Decrypt.jsx` `handleDecrypt`: guard on missing inputs,
otherwise call `accessFile` and store the response. The boolean records
whether the network call was made. -/
def handleDecrypt (st : DecryptPageState) (outcome : BackendOutcome) :
    DecryptPageState × Bool :=
  if st.encryptedFile = none ∨ st.iris = none ∨ st.fingerprint = none then
    ({ st with result := some missingFilesResult }, false)
  else
    ({ st with loading := false, result := some (accessFile outcome) }, true)

/-- Translated from `Register.jsx` `handleClear`: reset every form field and
the result. -/
def handleClear (st : RegisterPageState) : RegisterPageState :=
  { st with file := none, iris := none, fingerprint := none,
            irisPreview := none, fpPreview := none, result := none }

/-- Translated from `Decrypt.jsx` `handleNewDecryption`: reset every form
field and the result. -/
def handleNewDecryption (st : DecryptPageState) : DecryptPageState :=
  { st with encryptedFile := none, iris := none, fingerprint := none,
            irisPreview := none, fpPreview := none, result := none }

/-! Concrete sample data used by the witnesses. -/

/-- Sample plaintext file bytes. -/
def sampleFile : List Nat := [104, 105]

/-- Sample iris image. -/
def sampleIris : Image := [32, 48, 64, 80]

/-- Sample fingerprint image. -/
def sampleFp : Image := [16, 32, 48, 64]

/-- A different fingerprint image (different subject). -/
def wrongFp : Image := [240, 240, 240, 240]

/-- A recapture of the sample iris: different image bytes that quantize to
the identical descriptor (the within-tolerance case of spec §4.3). -/
def sampleIris2 : Image := [33, 48, 64, 80]

/-- A blank image the validator rejects. -/
def blankImage : Image := [0, 0, 0, 0]

/-- Sample nonce supplied by the caller's randomness. -/
def sampleNonce : Nat := 7

/-- The container produced by registering the sample data. -/
def sampleContainer : EncryptedContainer :=
  match register sampleFile sampleIris sampleFp sampleNonce with
  | .ok (c, _) => c
  | .error _ => { version := 0, nonce := 0, tag := 0, ciphertext := [], meta := [] }

/-- The watermark produced by registering the sample data. -/
def sampleWatermark : List Nat :=
  match register sampleFile sampleIris sampleFp sampleNonce with
  | .ok (_, w) => w
  | .error _ => []

/-- The sample container with its authentication tag altered. -/
def sampleTampered : EncryptedContainer :=
  { sampleContainer with tag := sampleContainer.tag + 1 }

/-- A sample run context. -/
def sampleCtx : RunContext :=
  { host := 0, processId := 0, runId := 0, loadOrder := [] }

/-- A second, different run context. -/
def sampleCtx2 : RunContext :=
  { host := 5, processId := 9, runId := 2, loadOrder := [1, 2] }

/-- The Register page's initial state: nothing uploaded yet. -/
def emptyRegisterPage : RegisterPageState :=
  { file := none, iris := none, fingerprint := none, irisPreview := none,
    fpPreview := none, loading := false, result := none }

/-- The Decrypt page's initial state: nothing uploaded yet. -/
def emptyDecryptPage : DecryptPageState :=
  { encryptedFile := none, iris := none, fingerprint := none,
    irisPreview := none, fpPreview := none, loading := false, result := none }

/-- A sample backend outcome (a bare network failure). -/
def sampleOutcome : BackendOutcome :=
  .err { responseDetail := none, message := none }

/-! Helper lemmas. -/

theorem encodeList_inj : ∀ {xs ys : List Nat}, encodeList xs = encodeList ys → xs = ys
  | [], [], _ => rfl
  | [], _ :: _, h => by simp [encodeList] at h
  | _ :: _, [], h => by simp [encodeList] at h
  | x :: xs, y :: ys, h => by
      simp only [encodeList, Nat.add_right_cancel_iff] at h
      obtain ⟨h1, h2⟩ := Nat.pair_eq_pair.mp h
      rw [h1, encodeList_inj h2]

theorem mac_inj {k v n k' v' n' : Nat} {ct m ct' m' : List Nat}
    (h : mac k v n ct m = mac k' v' n' ct' m') :
    k = k' ∧ v = v' ∧ n = n' ∧ ct = ct' ∧ m = m' := by
  unfold mac at h
  obtain ⟨hk, h⟩ := Nat.pair_eq_pair.mp h
  obtain ⟨hv, h⟩ := Nat.pair_eq_pair.mp h
  obtain ⟨hn, h⟩ := Nat.pair_eq_pair.mp h
  obtain ⟨hct, hm⟩ := Nat.pair_eq_pair.mp h
  exact ⟨hk, hv, hn, encodeList_inj hct, encodeList_inj hm⟩

theorem ksByte_lt (key nonce i : Nat) : ksByte key nonce i < 256 :=
  Nat.mod_lt _ (by omega)

theorem decBytes_encBytes (key nonce : Nat) :
    ∀ (pt : List Nat) (i : Nat), (∀ b ∈ pt, b < 256) →
      decBytes key nonce i (encBytes key nonce i pt) = pt
  | [], _, _ => rfl
  | b :: bs, i, h => by
      have hb : b < 256 := h b (List.mem_cons_self b bs)
      have hk : ksByte key nonce i < 256 := ksByte_lt key nonce i
      have htail : decBytes key nonce (i + 1) (encBytes key nonce (i + 1) bs) = bs :=
        decBytes_encBytes key nonce bs (i + 1)
          (fun x hx => h x (List.mem_cons_of_mem b hx))
      simp only [encBytes, decBytes, htail, List.cons.injEq, and_true]
      omega

theorem mismatchCount_self : ∀ xs : List Nat, mismatchCount xs xs = 0
  | [] => rfl
  | x :: xs => by simp [mismatchCount, mismatchCount_self xs]

theorem OneByteDiff.ne {xs ys : List Nat} (h : OneByteDiff xs ys) : xs ≠ ys := by
  rintro rfl
  rw [OneByteDiff, mismatchCount_self] at h
  exact absurd h.2 (by omega)

/-- Inversion of a successful `register`: the extractor succeeded on both
images, the validator accepted both descriptors, and the container is the
authenticated encryption of the file under the derived key. -/
theorem register_ok_elim {file : List Nat} {irisImg fpImg : Image}
    {nonce : Nat} {c : EncryptedContainer} {w : List Nat}
    (hreg : register file irisImg fpImg nonce = .ok (c, w)) :
    ∃ dI dF, extract irisImg .iris = .ok dI ∧ extract fpImg .fingerprint = .ok dF ∧
      (accept (validate dI .iris) && accept (validate dF .fingerprint)) = true ∧
      c = encryptC (derive dI dF) nonce file [file.length] ∧ w = render dI dF := by
  unfold register at hreg
  cases h1 : extract irisImg .iris with
  | error e => rw [h1] at hreg; exact absurd hreg (by simp)
  | ok dI =>
    rw [h1] at hreg; dsimp only at hreg
    cases h2 : extract fpImg .fingerprint with
    | error e => rw [h2] at hreg; exact absurd hreg (by simp)
    | ok dF =>
      rw [h2] at hreg; dsimp only at hreg
      by_cases hv : (accept (validate dI .iris) && accept (validate dF .fingerprint)) = true
      · rw [if_pos hv] at hreg
        refine ⟨dI, dF, rfl, rfl, hv, ?_, ?_⟩
        · exact (Prod.mk.injEq .. ▸ Except.ok.injEq .. ▸ hreg).1.symm
        · exact (Prod.mk.injEq .. ▸ Except.ok.injEq .. ▸ hreg).2.symm
      · rw [if_neg hv] at hreg; exact absurd hreg (by simp)

/-- Inversion of a successful `decryptC`: the framing is current, the tag
authenticates all fields under the presented key, and the plaintext is the
keystream decryption of the ciphertext. -/
theorem decryptC_ok_elim {c : EncryptedContainer} {key : Nat} {pt : List Nat}
    (h : decryptC c key = .ok pt) :
    c.version = currentVersion ∧
    c.tag = mac key c.version c.nonce c.ciphertext c.meta ∧
    pt = decBytes key c.nonce 0 c.ciphertext := by
  unfold decryptC at h
  by_cases h1 : c.version ≠ currentVersion
  · rw [if_pos h1] at h
    exact absurd h (by simp)
  · rw [if_neg h1] at h
    by_cases h2 : c.tag = mac key c.version c.nonce c.ciphertext c.meta
    · rw [if_pos h2] at h
      exact ⟨not_not.mp h1, h2, (Except.ok.injEq .. ▸ h).symm⟩
    · rw [if_neg h2] at h
      exact absurd h (by simp)

theorem jsOr_ne_empty {a : Option String} {b : String} (hb : b ≠ "") :
    jsOr a b ≠ "" := by
  unfold jsOr
  cases a with
  | none => exact hb
  | some s =>
      dsimp only
      by_cases hs : s = ""
      · rw [if_pos hs]; exact hb
      · rw [if_neg hs]; exact hs

theorem decryptC_encryptC (key nonce : Nat) (pt meta : List Nat)
    (hbytes : ∀ b ∈ pt, b < 256) :
    decryptC (encryptC key nonce pt meta) key = .ok pt := by
  unfold decryptC encryptC
  dsimp only
  rw [if_neg (by simp), if_pos rfl]
  exact congrArg _ (decBytes_encBytes key nonce pt 0 hbytes)

/-- C1: Register(file, iris, fp) followed immediately by Access on the
resulting container with the same image bytes returns exactly the original
file bytes (and resets the limiter to `Clean`). -/
theorem register_access_roundtrip
    (file : List Nat) (irisImg fpImg : Image) (nonce now : Nat)
    (c : EncryptedContainer) (w : List Nat)
    (hbytes : ∀ b ∈ file, b < 256)
    (hreg : register file irisImg fpImg nonce = .ok (c, w)) :
    accessStep .Clean now c irisImg fpImg = (.ok file, .Clean) := by
  obtain ⟨dI, dF, h1, h2, hv, hc, _⟩ := register_ok_elim hreg
  subst hc
  unfold accessStep
  rw [show checkAllowed .Clean now = .ok .Clean from rfl]
  rw [h1, h2]
  dsimp only
  rw [if_pos hv]
  rw [decryptC_encryptC (derive dI dF) nonce file [file.length] hbytes]
  rfl

/-- C1 witness: the concrete sample registration round-trips. -/
theorem register_access_roundtrip_witness :
    (∀ b ∈ sampleFile, b < 256) ∧
    register sampleFile sampleIris sampleFp sampleNonce =
      .ok (sampleContainer, sampleWatermark) ∧
    accessStep .Clean 0 sampleContainer sampleIris sampleFp =
      (.ok sampleFile, .Clean) :=
  ⟨by decide, rfl,
    register_access_roundtrip sampleFile sampleIris sampleFp sampleNonce 0
      sampleContainer sampleWatermark (by decide) rfl⟩

/-- C2: a single-byte modification of a container produced by Register makes
the subsequent Access attempt fail with `AccessDenied` or `CorruptContainer`;
it never returns altered plaintext. -/
theorem tamper_detected
    (file : List Nat) (irisImg fpImg : Image) (nonce now : Nat)
    (c c' : EncryptedContainer) (w : List Nat)
    (hreg : register file irisImg fpImg nonce = .ok (c, w))
    (htam : SingleByteTamper c c') :
    (accessStep .Clean now c' irisImg fpImg).1 = .error CoreError.AccessDenied ∨
    (accessStep .Clean now c' irisImg fpImg).1 = .error CoreError.CorruptContainer := by
  obtain ⟨dI, dF, h1, h2, hv, hc, _⟩ := register_ok_elim hreg
  have hcv : c.version = currentVersion := by rw [hc]; rfl
  have hcn : c.nonce = nonce := by rw [hc]; rfl
  have hcct : c.ciphertext = encBytes (derive dI dF) nonce 0 file := by rw [hc]; rfl
  have hcm : c.meta = [file.length] := by rw [hc]; rfl
  have hctag : c.tag = mac (derive dI dF) currentVersion nonce
      (encBytes (derive dI dF) nonce 0 file) [file.length] := by rw [hc]; rfl
  have hdec : decryptC c' (derive dI dF) = .error CoreError.AccessDenied ∨
      decryptC c' (derive dI dF) = .error CoreError.CorruptContainer := by
    rcases htam with ⟨hver, _, _, _, _⟩ | ⟨hver, hnon, htag, hct, hm⟩ |
      ⟨hver, hnon, htag, hct, hm⟩ | ⟨hver, hnon, htag, hct, hm⟩ |
      ⟨hver, hnon, htag, hct, hm⟩
    · right
      unfold decryptC
      rw [if_pos (by rw [← hcv]; exact hver)]
    · left
      unfold decryptC
      rw [if_neg (by rw [hver, hcv]; simp)]
      rw [if_neg ?_]
      · intro he
        rw [htag, hctag, hver, hcv, hct, hcct, hm, hcm] at he
        have hx := ((mac_inj he).2.2.1).symm
        exact hnon (hx.trans hcn.symm)
    · left
      unfold decryptC
      rw [if_neg (by rw [hver, hcv]; simp)]
      rw [if_neg ?_]
      · intro he
        rw [hver, hcv, hnon, hcn, hct, hcct, hm, hcm] at he
        rw [he, hctag] at htag
        exact htag rfl
    · left
      unfold decryptC
      rw [if_neg (by rw [hver, hcv]; simp)]
      rw [if_neg ?_]
      · intro he
        rw [htag, hctag, hver, hcv, hnon, hcn, hm, hcm] at he
        have hcteq := ((mac_inj he).2.2.2.1).symm
        rw [← hcct] at hcteq
        exact hct.ne hcteq.symm
    · left
      unfold decryptC
      rw [if_neg (by rw [hver, hcv]; simp)]
      rw [if_neg ?_]
      · intro he
        rw [htag, hctag, hver, hcv, hnon, hcn, hct, hcct] at he
        have hmeq := ((mac_inj he).2.2.2.2).symm
        rw [← hcm] at hmeq
        exact hm.ne hmeq.symm
  unfold accessStep
  rw [show checkAllowed .Clean now = .ok .Clean from rfl, h1, h2]
  dsimp only
  rw [if_pos hv]
  rcases hdec with h | h
  · left; rw [h]
  · right; rw [h]

/-- C2 witness: the sample container with an altered tag is rejected. -/
theorem tamper_detected_witness :
    register sampleFile sampleIris sampleFp sampleNonce =
      .ok (sampleContainer, sampleWatermark) ∧
    SingleByteTamper sampleContainer sampleTampered ∧
    ((accessStep .Clean 0 sampleTampered sampleIris sampleFp).1 =
        .error CoreError.AccessDenied ∨
      (accessStep .Clean 0 sampleTampered sampleIris sampleFp).1 =
        .error CoreError.CorruptContainer) :=
  ⟨rfl, by decide,
    tamper_detected sampleFile sampleIris sampleFp sampleNonce 0
      sampleContainer sampleTampered sampleWatermark rfl (by decide)⟩

/-- C3: the extractor is deterministic — for the same image bytes and
modality, any two runs on any hosts/processes yield bit-identical
descriptors. -/
theorem extract_deterministic (ctx₁ ctx₂ : RunContext) (img : Image)
    (m : Modality) : extractRun ctx₁ img m = extractRun ctx₂ img m := rfl

/-- C4: the KDF is deterministic across runs on identical descriptor pairs,
and any pair differing in either descriptor yields a different key (the
ideal-model rendering of statistical unrelatedness). -/
theorem derive_deterministic_sensitive
    (ctx₁ ctx₂ : RunContext) (d1 d2 e1 e2 : Descriptor)
    (h : d1 ≠ e1 ∨ d2 ≠ e2) :
    deriveRun ctx₁ d1 d2 = deriveRun ctx₂ d1 d2 ∧
    derive d1 d2 ≠ derive e1 e2 := by
  refine ⟨rfl, fun he => ?_⟩
  obtain ⟨ha, hb⟩ := Nat.pair_eq_pair.mp he
  rcases h with h | h
  · exact h (encodeList_inj ha)
  · exact h (encodeList_inj hb)

/-- C4 witness: concrete descriptor pairs. -/
theorem derive_deterministic_sensitive_witness :
    (([2] : Descriptor) ≠ [3] ∨ ([4] : Descriptor) ≠ [4]) ∧
    (deriveRun sampleCtx [2] [4] = deriveRun sampleCtx2 [2] [4] ∧
      derive [2] [4] ≠ derive [3] [4]) :=
  ⟨Or.inl (by decide),
    derive_deterministic_sensitive sampleCtx sampleCtx2 [2] [4] [3] [4]
      (Or.inl (by decide))⟩

/-- C5: the Attempt Limiter state machine — failure moves `Clean` to
`Warned 1` and `Warned n` to `Warned (n+1)` or to `Locked` once the count
exceeds the threshold, success resets to `Clean`, `Locked` returns to
`Clean` once the time passes the expiry, and while locked every attempt
fails with `RateLimited`. -/
theorem limiter_state_machine
    (n t now t2 now2 : Nat) (s : LimiterState) (c : EncryptedContainer)
    (irisImg fpImg : Image) (hlocked : now ≤ t) :
    recordFailure now .Clean = .Warned 1 ∧
    recordFailure now (.Warned n) =
      (if failThreshold < n + 1 then .Locked (now + lockoutCooldown)
       else .Warned (n + 1)) ∧
    recordSuccess s = .Clean ∧
    checkAllowed (.Locked t2) now2 =
      (if t2 < now2 then .ok .Clean else .error (t2 - now2)) ∧
    (accessStep (.Locked t) now c irisImg fpImg).1 =
      .error (.RateLimited (t - now)) := by
  refine ⟨rfl, rfl, rfl, rfl, ?_⟩
  have hch : checkAllowed (.Locked t) now = .error (t - now) := by
    unfold checkAllowed
    dsimp only
    rw [if_neg (by omega)]
  unfold accessStep
  rw [hch]

/-- C5 witness: concrete limiter transitions and a locked-out attempt with
correct biometrics. -/
theorem limiter_state_machine_witness :
    5 ≤ 10 ∧
    (recordFailure 5 .Clean = .Warned 1 ∧
      recordFailure 5 (.Warned 3) =
        (if failThreshold < 3 + 1 then .Locked (5 + lockoutCooldown)
         else .Warned (3 + 1)) ∧
      recordSuccess (.Warned 2) = .Clean ∧
      checkAllowed (.Locked 1) 2 =
        (if 1 < 2 then .ok .Clean else .error (1 - 2)) ∧
      (accessStep (.Locked 10) 5 sampleContainer sampleIris sampleFp).1 =
        .error (.RateLimited (10 - 5))) :=
  ⟨by omega,
    limiter_state_machine 3 10 5 1 2 (.Warned 2) sampleContainer sampleIris
      sampleFp (by omega)⟩

/-- C6: validator rejection (`InvalidBiometric`) and key-mismatch denial
(`AccessDenied`) are distinct typed errors produced by the Access pipeline,
yet both present externally with the same generic access-denied message. -/
theorem error_category_separation :
    CoreError.InvalidBiometric ≠ CoreError.AccessDenied ∧
    externalMessage .InvalidBiometric = externalMessage .AccessDenied ∧
    (accessStep .Clean 0 sampleContainer blankImage sampleFp).1 =
      .error .InvalidBiometric ∧
    (accessStep .Clean 0 sampleContainer sampleIris wrongFp).1 =
      .error .AccessDenied :=
  ⟨by decide, rfl, rfl, rfl⟩

/-- C7: every successful Access on a registered container — with whatever
image bytes the caller presents — returns exactly the plaintext bytes of the
originally registered file. -/
theorem access_success_plaintext
    (file : List Nat) (irisImg fpImg accIris accFp : Image) (nonce now : Nat)
    (c : EncryptedContainer) (w : List Nat) (s s' : LimiterState) (pt : List Nat)
    (hbytes : ∀ b ∈ file, b < 256)
    (hreg : register file irisImg fpImg nonce = .ok (c, w))
    (hacc : accessStep s now c accIris accFp = (.ok pt, s')) :
    pt = file := by
  obtain ⟨dI, dF, h1, h2, hv, hc, _⟩ := register_ok_elim hreg
  subst hc
  unfold accessStep at hacc
  cases hs : checkAllowed s now with
  | error r =>
      rw [hs] at hacc
      exact absurd (congrArg Prod.fst hacc) (by simp)
  | ok s1 =>
      rw [hs] at hacc
      cases hI : extract accIris .iris with
      | error e =>
          rw [hI] at hacc
          exact absurd (congrArg Prod.fst hacc) (by simp)
      | ok dI2 =>
          rw [hI] at hacc
          cases hF : extract accFp .fingerprint with
          | error e =>
              rw [hF] at hacc
              exact absurd (congrArg Prod.fst hacc) (by simp)
          | ok dF2 =>
              rw [hF] at hacc
              dsimp only at hacc
              by_cases hv2 : (accept (validate dI2 .iris) &&
                  accept (validate dF2 .fingerprint)) = true
              · rw [if_pos hv2] at hacc
                cases hd : decryptC (encryptC (derive dI dF) nonce file
                    [file.length]) (derive dI2 dF2) with
                | error e =>
                    rw [hd] at hacc
                    cases e <;> exact absurd (congrArg Prod.fst hacc) (by simp)
                | ok pt2 =>
                    rw [hd] at hacc
                    have hpt : pt2 = pt :=
                      Except.ok.injEq .. ▸ (Prod.mk.injEq .. ▸ hacc).1
                    obtain ⟨_, htag, hptv⟩ := decryptC_ok_elim hd
                    have htag2 : mac (derive dI dF) currentVersion nonce
                        (encBytes (derive dI dF) nonce 0 file) [file.length] =
                        mac (derive dI2 dF2) currentVersion nonce
                        (encBytes (derive dI dF) nonce 0 file) [file.length] := htag
                    have hkey : derive dI dF = derive dI2 dF2 :=
                      (mac_inj htag2).1
                    rw [← hpt, hptv, ← hkey]
                    exact decBytes_encBytes (derive dI dF) nonce file 0 hbytes
              · rw [if_neg hv2] at hacc
                exact absurd (congrArg Prod.fst hacc) (by simp)

/-- C7 witness: a successful access presenting a recaptured iris image with
different bytes than registration still returns exactly the sample file. -/
theorem access_success_plaintext_witness :
    (∀ b ∈ sampleFile, b < 256) ∧
    register sampleFile sampleIris sampleFp sampleNonce =
      .ok (sampleContainer, sampleWatermark) ∧
    accessStep .Clean 0 sampleContainer sampleIris2 sampleFp =
      (.ok sampleFile, .Clean) ∧
    sampleFile = sampleFile :=
  ⟨by decide, rfl, rfl,
    access_success_plaintext sampleFile sampleIris sampleFp sampleIris2
      sampleFp sampleNonce 0 sampleContainer sampleWatermark .Clean .Clean
      sampleFile (by decide) rfl rfl⟩

/-- C8: `registerFile` and `accessFile` always resolve to an object with a
boolean `success` field; on failure the `error` field is a non-empty string,
falling back to "Registration failed" and "Access denied" respectively. -/
theorem api_no_silent_failure (d : ResponseData) (e : JsError) :
    registerFile (.ok d) = { success := true, data := some d, error := none } ∧
    accessFile (.ok d) = { success := true, data := some d, error := none } ∧
    (registerFile (.err e)).success = false ∧
    (accessFile (.err e)).success = false ∧
    (registerFile (.err e)).error =
      some (jsOr e.responseDetail (jsOr e.message "Registration failed")) ∧
    (accessFile (.err e)).error =
      some (jsOr e.responseDetail (jsOr e.message "Access denied")) ∧
    jsOr e.responseDetail (jsOr e.message "Registration failed") ≠ "" ∧
    jsOr e.responseDetail (jsOr e.message "Access denied") ≠ "" := by
  refine ⟨rfl, rfl, rfl, rfl, rfl, rfl, ?_, ?_⟩
  · exact jsOr_ne_empty (jsOr_ne_empty (by decide))
  · exact jsOr_ne_empty (jsOr_ne_empty (by decide))

/-- C9: with any required input still null, `handleRegister` and
`handleDecrypt` make no network request and only set the result to the
missing-files failure, leaving all other state (including `loading`)
unchanged. -/
theorem missing_input_guard
    (rs : RegisterPageState) (ds : DecryptPageState) (o1 o2 : BackendOutcome)
    (hr : rs.file = none ∨ rs.iris = none ∨ rs.fingerprint = none)
    (hd : ds.encryptedFile = none ∨ ds.iris = none ∨ ds.fingerprint = none) :
    handleRegister rs o1 = ({ rs with result := some missingFilesResult }, false) ∧
    handleDecrypt ds o2 = ({ ds with result := some missingFilesResult }, false) := by
  constructor
  · unfold handleRegister
    rw [if_pos hr]
  · unfold handleDecrypt
    rw [if_pos hd]

/-- C9 witness: the empty forms trigger the guard. -/
theorem missing_input_guard_witness :
    (emptyRegisterPage.file = none ∨ emptyRegisterPage.iris = none ∨
      emptyRegisterPage.fingerprint = none) ∧
    (emptyDecryptPage.encryptedFile = none ∨ emptyDecryptPage.iris = none ∨
      emptyDecryptPage.fingerprint = none) ∧
    (handleRegister emptyRegisterPage sampleOutcome =
        ({ emptyRegisterPage with result := some missingFilesResult }, false) ∧
      handleDecrypt emptyDecryptPage sampleOutcome =
        ({ emptyDecryptPage with result := some missingFilesResult }, false)) :=
  ⟨Or.inl rfl, Or.inl rfl,
    missing_input_guard emptyRegisterPage emptyDecryptPage sampleOutcome
      sampleOutcome (Or.inl rfl) (Or.inl rfl)⟩

/-- C10: `handleClear` and `handleNewDecryption` null out every piece of
form state — the protected/encrypted file, iris, fingerprint, both previews,
and the result — from any starting state. -/
theorem clear_form_resets (rs : RegisterPageState) (ds : DecryptPageState) :
    (handleClear rs).file = none ∧ (handleClear rs).iris = none ∧
    (handleClear rs).fingerprint = none ∧ (handleClear rs).irisPreview = none ∧
    (handleClear rs).fpPreview = none ∧ (handleClear rs).result = none ∧
    (handleNewDecryption ds).encryptedFile = none ∧
    (handleNewDecryption ds).iris = none ∧
    (handleNewDecryption ds).fingerprint = none ∧
    (handleNewDecryption ds).irisPreview = none ∧
    (handleNewDecryption ds).fpPreview = none ∧
    (handleNewDecryption ds).result = none :=
  ⟨rfl, rfl, rfl, rfl, rfl, rfl, rfl, rfl, rfl, rfl, rfl, rfl⟩

end Verimark



